import Mathlib

/-!
Shallow embedding of the weather-lookup service:
the in-memory TTL cache (src/backend/src/instances/cache/index.ts, class
MemoryCache) and the weather service pipeline (weatherService:
getCurrentTemperature, refreshTemperature, checkRefreshEligibility,
celsiusToFahrenheit, formatTimestamp).

Modelling conventions:
* epoch milliseconds are `Int` (JS `Date.now()`);
* JS numbers carrying temperatures are modelled as `ℚ` (the doubles the
  program manipulates embed into ℚ; all operations involved — comparison,
  linear conversion, one-decimal rounding — are exact on the inputs of
  interest);
* the cache `Map<string, CacheEntry<any>>` is a function
  `String → Option CacheEntry`; the heterogeneous `any` payload (either a
  `TemperatureData` record or a `number` refresh timestamp) is the inductive
  `CacheValue`;
* `async` functions are modelled by passing, at each `await` point, the clock
  value and cache state observed when the call resumes: `getCurrentTemperature`
  suspends exactly once (at the provider fetch), so it takes `now1, c1` (entry)
  and `now2, c2` (resumption; in a run without interleaving tasks `now2 ≥ now1`
  and `c2` is the cache returned by the first lookup).  The outcome of the
  fetch itself is the oracle parameter `fetch`;
* thrown values are the `CallOutcome` error constructors: the service throws
  plain `Error`s (validation) and `{code, message}` objects (`errApi`).
-/

namespace Weather

/-- ConnectionStatus from weatherTypes.ts: 'online' | 'offline' | 'stale'. -/
inductive ConnectionStatus
| online
| offline
| stale
deriving DecidableEq, Repr

/-- TemperatureData from weatherTypes.ts. -/
structure TemperatureData where
  temperature : ℚ
  unit : String
  location : String
  lastUpdate : String
  connectionStatus : ConnectionStatus
deriving DecidableEq, Repr

/-- TemperatureUnit from weatherTypes.ts: 'celsius' | 'fahrenheit'. -/
inductive TemperatureUnit
| celsius
| fahrenheit
deriving DecidableEq, Repr

/-- The string value of the unit, as interpolated into the cache key. -/
def TemperatureUnit.str : TemperatureUnit → String
| .celsius => "celsius"
| .fahrenheit => "fahrenheit"

/-- The relevant part of WeatherApiResponse (weatherTypes.ts): the pipeline
reads only `location.name` and `current.temp_c`. -/
structure WeatherApiResponse where
  locationName : String
  temp_c : ℚ
deriving DecidableEq, Repr

/-- The `any` payload stored in the single weatherCache Map: temperature
records under "weather:..." keys and numeric refresh timestamps under
"refresh:..." keys. -/
inductive CacheValue
| temp (d : TemperatureData)
| num (n : Int)
deriving DecidableEq, Repr

/-- CacheEntry<T> from instances/cache/index.ts. -/
structure CacheEntry where
  data : CacheValue
  expiresAt : Int
deriving DecidableEq, Repr

/-- The private Map of class MemoryCache, as a partial map. -/
def MemoryCache : Type := String → Option CacheEntry

/-- MemoryCache.set: `expiresAt = Date.now() + ttl * 1000`, unconditional
overwrite. `ttl` is in seconds, `now` is the Date.now() at call time. -/
def MemoryCache.set (c : MemoryCache) (key : String) (data : CacheValue)
    (ttl : Int) (now : Int) : MemoryCache :=
  fun k => if k = key then some ⟨data, now + ttl * 1000⟩ else c k

/-- MemoryCache.del: unconditional Map.delete. -/
def MemoryCache.del (c : MemoryCache) (key : String) : MemoryCache :=
  fun k => if k = key then none else c k

/-- MemoryCache.get: absent → null; `Date.now() > expiresAt` → delete the
entry (lazy eviction) and return null; otherwise return the stored data.
Returns the value observed together with the cache state after the call. -/
def MemoryCache.get (c : MemoryCache) (key : String) (now : Int) :
    Option CacheValue × MemoryCache :=
  match c key with
  | none => (none, c)
  | some entry =>
    if now > entry.expiresAt then (none, c.del key)
    else (some entry.data, c)

/-- The empty cache (fresh MemoryCache instance). -/
def MemoryCache.empty : MemoryCache := fun _ => none

/-- celsiusToFahrenheit from weatherService: `(celsius * 9) / 5 + 32`. -/
def celsiusToFahrenheit (celsius : ℚ) : ℚ :=
  celsius * 9 / 5 + 32

/-- The pipeline's `parseFloat(temperature.toFixed(1))`: round to one decimal
digit. JS `toFixed` picks the closest one-decimal value, ties toward +∞. -/
def roundToOneDecimal (x : ℚ) : ℚ :=
  (⌊x * 10 + 1/2⌋ : ℚ) / 10

/-- The `padStart(2, '0')` applied to hour and minute components. -/
def pad2 (n : Nat) : String :=
  if n < 10 then "0" ++ toString n else toString n

/-- formatTimestamp from weatherService: "Updated at HH:MM" from the local
hours and minutes of the Date passed in. -/
def formatTimestamp (hours minutes : Nat) : String :=
  "Updated at " ++ pad2 hours ++ ":" ++ pad2 minutes

/-- A JS number that may be NaN, as produced by Date parsing. -/
inductive JSNum
| nan
| val (v : Int)
deriving DecidableEq, Repr

/-- Model of JS `new Date(s).getTime()` on the strings this service feeds it.
The only strings ever stored in `lastUpdate` are outputs of formatTimestamp,
i.e. of the form "Updated at HH:MM"; no JS engine's Date parser accepts such a
string (the leading token "Updated" is not a recognized date word, so
`new Date(...)` is Invalid Date), hence `getTime()` is NaN on the entire
domain this service exercises. -/
def jsDateGetTime (_s : String) : JSNum :=
  JSNum.nan

/-- JS subtraction `a - b` where `b` may be NaN: NaN propagates. -/
def JSNum.subFrom (now : Int) : JSNum → JSNum
| .nan => .nan
| .val v => .val (now - v)

/-- JS `a > n` where `a` may be NaN: any comparison with NaN is false. -/
def JSNum.gt (a : JSNum) (n : Int) : Bool :=
  match a with
  | .nan => false
  | .val v => decide (v > n)

/-- The cache key `weather:${location}:${unit}` of getCurrentTemperature. -/
def cacheKey (location : String) (u : TemperatureUnit) : String :=
  "weather:" ++ location ++ ":" ++ u.str

/-- The refresh-guard key `refresh:${location}`. -/
def refreshKey (location : String) : String :=
  "refresh:" ++ location

/-- Modelled from the spec: `config.cache.ttl` (the src/config module is not
in the source tree); the spec fixes the temperature-record cache TTL at 15
minutes, i.e. 900 seconds. -/
def configCacheTtl : Int := 900

/-- Outcome of a service call: a returned TemperatureData, a thrown plain
Error (validation), or a thrown `{code, message}` object. `illTyped` marks
states the typed source cannot reach (a truthy non-record payload found under
a weather key, which the code would spread into a malformed object). -/
inductive CallOutcome
| ok (d : TemperatureData)
| errValidation (msg : String)
| errApi (code msg : String)
| illTyped
deriving DecidableEq, Repr

/-- Result of the awaited fetchWeatherData call: a parsed response, or a
thrown `{code: 'WEATHER_API_ERROR', message}` (timeout, transport error or
non-2xx status). -/
inductive FetchResult
| ok (r : WeatherApiResponse)
| err (msg : String)
deriving DecidableEq, Repr

/-- The catch block of getCurrentTemperature: one more cache lookup under the
same key; truthy record → copy with connectionStatus 'offline'; otherwise
throw `{code: 'WEATHER_API_ERROR', message: 'Unable to retrieve weather data
and no cached data available'}`. -/
def offlineFallback (key : String) (now2 : Int) (c2 : MemoryCache) :
    CallOutcome × MemoryCache :=
  match MemoryCache.get c2 key now2 with
  | (some (.temp d), c2') => (.ok { d with connectionStatus := .offline }, c2')
  | (some (.num n), c2') =>
      -- `if (offlineData)` is JS truthiness: a cached 0 is falsy and behaves
      -- like a miss; any other number is truthy (unreachable in typed use)
      if n = 0 then
        (.errApi "WEATHER_API_ERROR"
          "Unable to retrieve weather data and no cached data available", c2')
      else (.illTyped, c2')
  | (none, c2') =>
      (.errApi "WEATHER_API_ERROR"
        "Unable to retrieve weather data and no cached data available", c2')

/-- The TemperatureData record the pipeline builds after a successful,
plausible fetch: converted to the requested unit, rounded to one decimal,
stamped with the provider's canonical name, the formatted current time, and
connectionStatus 'online'. -/
def freshRecord (u : TemperatureUnit) (r : WeatherApiResponse)
    (h m : Nat) : TemperatureData :=
  { temperature := roundToOneDecimal
      (match u with
       | .fahrenheit => celsiusToFahrenheit r.temp_c
       | .celsius => r.temp_c)
    unit := match u with | .fahrenheit => "°F" | .celsius => "°C"
    location := r.locationName
    lastUpdate := formatTimestamp h m
    connectionStatus := .online }

/-- The try-block body after a successful fetch, and the catch block:
validation of the plausible range, unit conversion, one-decimal formatting,
record construction, cache write — with the catch block handling both the
implausible-range throw and a fetch failure. `now2, c2` are the clock and
cache when the call resumes after the fetch await (no further suspension
occurs, so the same pair serves the whole rest of the call); `h, m` are the
local hours and minutes of `new Date()` at that moment. -/
def fetchAndStore (key : String) (u : TemperatureUnit) (fetch : FetchResult)
    (now2 : Int) (c2 : MemoryCache) (h m : Nat) : CallOutcome × MemoryCache :=
  match fetch with
  | .ok r =>
    if r.temp_c < -90 ∨ r.temp_c > 60 then
      -- throw new Error('Temperature value outside plausible range'),
      -- caught by the surrounding catch block
      offlineFallback key now2 c2
    else
      let d : TemperatureData := freshRecord u r h m
      (.ok d, MemoryCache.set c2 key (.temp d) configCacheTtl now2)
  | .err _ => offlineFallback key now2 c2

/-- getCurrentTemperature from weatherService. `now1, c1` are the clock and
cache at entry; `fetch, now2, c2, h, m` are the fetch oracle and the
resumption state, consulted only on a cache miss (see module header). -/
def getCurrentTemperature (location : String) (u : TemperatureUnit)
    (now1 : Int) (c1 : MemoryCache) (fetch : FetchResult)
    (now2 : Int) (c2 : MemoryCache) (h m : Nat) : CallOutcome × MemoryCache :=
  if location = "" ∨ location.length > 50 then
    (.errValidation "Location must be between 1 and 50 characters", c1)
  else
    let key := cacheKey location u
    match MemoryCache.get c1 key now1 with
    | (some (.temp d), c1') =>
      -- cacheAge = Date.now() - new Date(cachedData.lastUpdate).getTime();
      -- isStale = cacheAge > 3600000
      let isStale := ((jsDateGetTime d.lastUpdate).subFrom now1).gt 3600000
      (.ok { d with connectionStatus := if isStale then .stale else .online }, c1')
    | (some (.num n), c1') =>
      -- `if (cachedData)` truthiness: a cached 0 is falsy, hence a miss
      if n = 0 then fetchAndStore key u fetch now2 c2 h m
      else (.illTyped, c1')
    | (none, _) => fetchAndStore key u fetch now2 c2 h m

/-- checkRefreshEligibility from weatherService: read the refresh-guard
entry; `if (!lastRefresh) return true` (null — or a falsy 0 — passes);
otherwise `Date.now() - lastRefresh >= 30000`. -/
def checkRefreshEligibility (location : String) (now : Int)
    (c : MemoryCache) : Bool × MemoryCache :=
  match MemoryCache.get c (refreshKey location) now with
  | (none, c') => (true, c')
  | (some (.num n), c') =>
      if n = 0 then (true, c')  -- !0 is true in JS
      else (decide (now - n ≥ 30000), c')
  | (some (.temp _), c') =>
      -- unreachable in typed use: `now - record` is NaN and NaN >= 30000
      -- is false
      (false, c')

/-- refreshTemperature from weatherService: delete the cached record, write
the refresh-guard entry (Date.now(), TTL 30 s), then call
getCurrentTemperature — all before any await, so the inner call starts on the
modified cache at the same clock `now0`. -/
def refreshTemperature (location : String) (u : TemperatureUnit)
    (now0 : Int) (c : MemoryCache) (fetch : FetchResult)
    (now2 : Int) (c2 : MemoryCache) (h m : Nat) : CallOutcome × MemoryCache :=
  let c1 := MemoryCache.set (MemoryCache.del c (cacheKey location u))
    (refreshKey location) (.num now0) 30 now0
  getCurrentTemperature location u now0 c1 fetch now2 c2 h m

/-! Helper lemmas about the cache operations. -/

theorem MemoryCache.set_apply_same (c : MemoryCache) (key : String)
    (v : CacheValue) (ttl now : Int) :
    MemoryCache.set c key v ttl now key = some ⟨v, now + ttl * 1000⟩ := by
  simp [MemoryCache.set]

theorem MemoryCache.set_apply_ne (c : MemoryCache) {k key : String}
    (v : CacheValue) (ttl now : Int) (h : k ≠ key) :
    MemoryCache.set c key v ttl now k = c k := by
  simp [MemoryCache.set, h]

theorem MemoryCache.del_apply_ne (c : MemoryCache) {k key : String}
    (h : k ≠ key) : MemoryCache.del c key k = c k := by
  simp [MemoryCache.del, h]

theorem MemoryCache.get_of_eq_none {c : MemoryCache} {key : String}
    (now : Int) (h : c key = none) :
    MemoryCache.get c key now = (none, c) := by
  simp [MemoryCache.get, h]

theorem MemoryCache.get_of_fresh {c : MemoryCache} {key : String}
    {e : CacheEntry} (now : Int) (h : c key = some e)
    (h2 : now ≤ e.expiresAt) :
    MemoryCache.get c key now = (some e.data, c) := by
  simp [MemoryCache.get, h]
  omega

theorem MemoryCache.get_of_expired {c : MemoryCache} {key : String}
    {e : CacheEntry} (now : Int) (h : c key = some e)
    (h2 : e.expiresAt < now) :
    MemoryCache.get c key now = (none, MemoryCache.del c key) := by
  simp [MemoryCache.get, h]
  omega

theorem MemoryCache.get_fst_some {c : MemoryCache} {key : String}
    {now : Int} {v : CacheValue}
    (h : (MemoryCache.get c key now).fst = some v) :
    MemoryCache.get c key now = (some v, c) := by
  rcases hc : c key with _ | e
  · simp [MemoryCache.get, hc] at h
  · by_cases he : now > e.expiresAt
    · simp [MemoryCache.get, hc, he] at h
    · simp [MemoryCache.get, hc, he] at h ⊢
      simp [h]

theorem MemoryCache.get_snd_apply (c : MemoryCache) (key : String)
    (now : Int) (k : String) :
    (MemoryCache.get c key now).snd k = c k ∨
    (MemoryCache.get c key now).snd k = none := by
  rcases hc : c key with _ | e
  · exact Or.inl (by simp [MemoryCache.get, hc])
  · by_cases he : now > e.expiresAt
    · by_cases hk : k = key
      · exact Or.inr (by simp [MemoryCache.get, hc, he, MemoryCache.del, hk])
      · exact Or.inl (by simp [MemoryCache.get, hc, he, MemoryCache.del, hk])
    · exact Or.inl (by simp [MemoryCache.get, hc, he])

theorem MemoryCache.get_snd_apply_ne (c : MemoryCache) (key : String)
    (now : Int) {k : String} (h : k ≠ key) :
    (MemoryCache.get c key now).snd k = c k := by
  rcases hc : c key with _ | e
  · simp [MemoryCache.get, hc]
  · by_cases he : now > e.expiresAt
    · simp [MemoryCache.get, hc, he, MemoryCache.del, h]
    · simp [MemoryCache.get, hc, he]

/-- The refresh-guard namespace and the weather-record namespace never
collide: the key prefixes differ. -/
theorem refreshKey_ne_cacheKey (l l' : String) (u : TemperatureUnit) :
    refreshKey l ≠ cacheKey l' u := by
  intro h
  have hd := congrArg String.data h
  rw [refreshKey, cacheKey, String.data_append, String.data_append,
    String.data_append] at hd
  simp at hd

/-- The first component of checkRefreshEligibility, expressed through the
value the guard lookup observes. -/
theorem checkRefreshEligibility_fst (location : String) (now : Int)
    (c : MemoryCache) :
    (checkRefreshEligibility location now c).fst
      = match (MemoryCache.get c (refreshKey location) now).fst with
        | none => true
        | some (.num n) => if n = 0 then true else decide (now - n ≥ 30000)
        | some (.temp _) => false := by
  unfold checkRefreshEligibility
  rcases hg : MemoryCache.get c (refreshKey location) now with ⟨v, c'⟩
  rcases v with _ | ⟨d⟩ | n
  · rfl
  · rfl
  · by_cases hn : n = 0 <;> simp [hn]

/-- Claim C7: get returns the stored value when an entry is present and
`now <= expiresAt`; otherwise it removes the entry and reports absent, with no
other effect on cache contents; set stores with
`expiresAt = now + ttlSeconds*1000`, unconditionally overwriting the key; an
entry set with TTL 1 s is returned by get 500 ms later and absent 1500 ms
later. -/
theorem c7_cache_ttl_semantics (c : MemoryCache) (key k' : String)
    (v : CacheValue) (ttl now0 now : Int) :
    (MemoryCache.set c key v ttl now0) key = some ⟨v, now0 + ttl * 1000⟩
  ∧ (k' ≠ key → (MemoryCache.set c key v ttl now0) k' = c k')
  ∧ (∀ e : CacheEntry, c key = some e → now ≤ e.expiresAt →
      MemoryCache.get c key now = (some e.data, c))
  ∧ (c key = none → MemoryCache.get c key now = (none, c))
  ∧ (∀ e : CacheEntry, c key = some e → e.expiresAt < now →
      MemoryCache.get c key now = (none, MemoryCache.del c key)
      ∧ (MemoryCache.get c key now).snd key = none
      ∧ (k' ≠ key → (MemoryCache.get c key now).snd k' = c k'))
  ∧ (now ≤ now0 + ttl * 1000 →
      MemoryCache.get (MemoryCache.set c key v ttl now0) key now
        = (some v, MemoryCache.set c key v ttl now0))
  ∧ (MemoryCache.get (MemoryCache.set c key v 1 now0) key (now0 + 500)).fst
      = some v
  ∧ (MemoryCache.get (MemoryCache.set c key v 1 now0) key (now0 + 1500)).fst
      = none := by
  refine ⟨MemoryCache.set_apply_same c key v ttl now0,
    fun h => MemoryCache.set_apply_ne c v ttl now0 h,
    fun e he hfresh => MemoryCache.get_of_fresh now he hfresh,
    fun h => MemoryCache.get_of_eq_none now h,
    fun e he hexp => ?_, fun h => ?_, ?_, ?_⟩
  · refine ⟨MemoryCache.get_of_expired now he hexp, ?_, ?_⟩
    · rw [MemoryCache.get_of_expired now he hexp]
      simp [MemoryCache.del]
    · intro hk
      rw [MemoryCache.get_of_expired now he hexp]
      simp [MemoryCache.del, hk]
  · have := MemoryCache.get_of_fresh now (MemoryCache.set_apply_same c key v ttl now0) h
    simpa using this
  · have := MemoryCache.get_of_fresh (now0 + 500)
      (MemoryCache.set_apply_same c key v 1 now0)
      (by change _ ≤ now0 + 1 * 1000; omega)
    simp [this]
  · have := MemoryCache.get_of_expired (now0 + 1500)
      (MemoryCache.set_apply_same c key v 1 now0)
      (by change now0 + 1 * 1000 < _; omega)
    simp [this]

/-- Witness for C7 at a concrete input: a value set with TTL 1 s at time 0 is
still returned (with the cache untouched) when read at 500 ms. -/
theorem c7_cache_ttl_semantics_witness :
    (500 : Int) ≤ 0 + 1 * 1000
  ∧ MemoryCache.get (MemoryCache.set MemoryCache.empty "k" (.num 5) 1 0) "k" 500
      = (some (.num 5), MemoryCache.set MemoryCache.empty "k" (.num 5) 1 0) :=
  ⟨by decide,
    (c7_cache_ttl_semantics MemoryCache.empty "k" "j" (.num 5) 1 0 500).2.2.2.2.2.1
      (by decide)⟩

/-- Claim C5: checkRefreshEligibility returns true when no refresh-guard
entry is present; when an entry holds timestamp t (a positive clock value, as
every stored Date.now() is) it returns true iff now - t >= 30000 ms; it
returns false immediately after the refresh-guard write and true once at
least 30000 ms have elapsed. -/
theorem c5_refresh_eligibility (location : String) (c : MemoryCache)
    (now t now0 now' : Int) :
    ((MemoryCache.get c (refreshKey location) now).fst = none →
      (checkRefreshEligibility location now c).fst = true)
  ∧ ((MemoryCache.get c (refreshKey location) now).fst = some (.num t) →
      0 < t →
      ((checkRefreshEligibility location now c).fst = true ↔ 30000 ≤ now - t))
  ∧ (0 < now0 →
      (checkRefreshEligibility location now0
        (MemoryCache.set c (refreshKey location) (.num now0) 30 now0)).fst
        = false)
  ∧ (0 < now0 → now0 + 30000 ≤ now' →
      (checkRefreshEligibility location now'
        (MemoryCache.set c (refreshKey location) (.num now0) 30 now0)).fst
        = true) := by
  refine ⟨fun h => ?_, fun h ht => ?_, fun h0 => ?_, fun h0 hel => ?_⟩
  · rw [checkRefreshEligibility_fst, h]
  · rw [checkRefreshEligibility_fst, h]
    have : t ≠ 0 := by omega
    simp [this, ge_iff_le]
  · have hfresh := MemoryCache.get_of_fresh now0
      (MemoryCache.set_apply_same c (refreshKey location) (.num now0) 30 now0)
      (by change _ ≤ now0 + 30 * 1000; omega)
    rw [checkRefreshEligibility_fst, hfresh]
    have hne : now0 ≠ 0 := by omega
    simp [hne]
  · by_cases hle : now' ≤ now0 + 30 * 1000
    · have hfresh := MemoryCache.get_of_fresh now'
        (MemoryCache.set_apply_same c (refreshKey location) (.num now0) 30 now0)
        (by change _ ≤ now0 + 30 * 1000; omega)
      rw [checkRefreshEligibility_fst, hfresh]
      have hne : now0 ≠ 0 := by omega
      simp [hne, ge_iff_le]
      omega
    · have hexp := MemoryCache.get_of_expired now'
        (MemoryCache.set_apply_same c (refreshKey location) (.num now0) 30 now0)
        (by change now0 + 30 * 1000 < _; omega)
      rw [checkRefreshEligibility_fst, hexp]

/-- Witness for C5 at concrete inputs: a guard written at t = 10000 makes the
check at 10000 ms (immediately after) ineligible, and the check at 40001 ms
eligible. -/
theorem c5_refresh_eligibility_witness :
    (0 : Int) < 10000
  ∧ (checkRefreshEligibility "Paris" 10000
      (MemoryCache.set MemoryCache.empty (refreshKey "Paris") (.num 10000) 30
        10000)).fst = false
  ∧ (checkRefreshEligibility "Paris" 40001
      (MemoryCache.set MemoryCache.empty (refreshKey "Paris") (.num 10000) 30
        10000)).fst = true :=
  ⟨by decide,
    (c5_refresh_eligibility "Paris" MemoryCache.empty 0 1 10000
        40001).2.2.1 (by decide),
    (c5_refresh_eligibility "Paris" MemoryCache.empty 0 1 10000
        40001).2.2.2 (by decide) (by decide)⟩

/-! Characterization lemmas for the retrieval pipeline. -/

theorem offlineFallback_found {c2 : MemoryCache} {key : String} {now2 : Int}
    {d : TemperatureData}
    (hf : (MemoryCache.get c2 key now2).fst = some (.temp d)) :
    offlineFallback key now2 c2
      = (.ok { d with connectionStatus := .offline }, c2) := by
  unfold offlineFallback
  rw [MemoryCache.get_fst_some hf]

theorem offlineFallback_none {c2 : MemoryCache} {key : String} {now2 : Int}
    (hf : (MemoryCache.get c2 key now2).fst = none) :
    (offlineFallback key now2 c2).fst
      = .errApi "WEATHER_API_ERROR"
          "Unable to retrieve weather data and no cached data available" := by
  unfold offlineFallback
  rcases hg : MemoryCache.get c2 key now2 with ⟨v, c2'⟩
  rw [hg] at hf
  simp only at hf
  subst hf
  rfl

theorem offlineFallback_snd (key : String) (now2 : Int) (c2 : MemoryCache) :
    (offlineFallback key now2 c2).snd = (MemoryCache.get c2 key now2).snd := by
  unfold offlineFallback
  rcases hg : MemoryCache.get c2 key now2 with ⟨v, c2'⟩
  rcases v with _ | d | n
  · rfl
  · rfl
  · by_cases hn : n = 0 <;> simp [hn]

theorem fetchAndStore_ok {r : WeatherApiResponse} (key : String)
    (u : TemperatureUnit) (now2 : Int) (c2 : MemoryCache) (h m : Nat)
    (hr : ¬(r.temp_c < -90 ∨ r.temp_c > 60)) :
    fetchAndStore key u (.ok r) now2 c2 h m
      = (.ok (freshRecord u r h m),
         MemoryCache.set c2 key (.temp (freshRecord u r h m))
           configCacheTtl now2) := by
  simp only [fetchAndStore]
  rw [if_neg hr]

theorem fetchAndStore_outOfRange {r : WeatherApiResponse} (key : String)
    (u : TemperatureUnit) (now2 : Int) (c2 : MemoryCache) (h m : Nat)
    (hr : r.temp_c < -90 ∨ r.temp_c > 60) :
    fetchAndStore key u (.ok r) now2 c2 h m = offlineFallback key now2 c2 := by
  simp only [fetchAndStore]
  rw [if_pos hr]

theorem fetchAndStore_err (key : String) (u : TemperatureUnit) (msg : String)
    (now2 : Int) (c2 : MemoryCache) (h m : Nat) :
    fetchAndStore key u (.err msg) now2 c2 h m
      = offlineFallback key now2 c2 := rfl

theorem fetchAndStore_snd_apply_ne (key : String) (u : TemperatureUnit)
    (fetch : FetchResult) (now2 : Int) (c2 : MemoryCache) (h m : Nat)
    {k : String} (hk : k ≠ key) :
    (fetchAndStore key u fetch now2 c2 h m).snd k = c2 k := by
  rcases fetch with r | msg
  · by_cases hr : r.temp_c < -90 ∨ r.temp_c > 60
    · rw [fetchAndStore_outOfRange key u now2 c2 h m hr, offlineFallback_snd]
      exact MemoryCache.get_snd_apply_ne c2 key now2 hk
    · rw [fetchAndStore_ok key u now2 c2 h m hr]
      exact MemoryCache.set_apply_ne c2 _ _ _ hk
  · rw [fetchAndStore_err, offlineFallback_snd]
    exact MemoryCache.get_snd_apply_ne c2 key now2 hk

theorem getCurrentTemperature_of_miss (location : String)
    (u : TemperatureUnit) (now1 now2 : Int) (c1 c2 : MemoryCache)
    (fetch : FetchResult) (h m : Nat)
    (hvalid : ¬(location = "" ∨ location.length > 50))
    (hmiss : (MemoryCache.get c1 (cacheKey location u) now1).fst = none) :
    getCurrentTemperature location u now1 c1 fetch now2 c2 h m
      = fetchAndStore (cacheKey location u) u fetch now2 c2 h m := by
  rcases hg : MemoryCache.get c1 (cacheKey location u) now1 with ⟨v, c1'⟩
  rw [hg] at hmiss
  simp only at hmiss
  subst hmiss
  simp only [getCurrentTemperature]
  rw [if_neg hvalid, hg]

theorem getCurrentTemperature_of_hit (location : String)
    (u : TemperatureUnit) (now1 now2 : Int) (c1 c2 : MemoryCache)
    (fetch : FetchResult) (h m : Nat) {d : TemperatureData}
    (hvalid : ¬(location = "" ∨ location.length > 50))
    (hhit : (MemoryCache.get c1 (cacheKey location u) now1).fst
      = some (.temp d)) :
    getCurrentTemperature location u now1 c1 fetch now2 c2 h m
      = (.ok { d with connectionStatus := .online }, c1) := by
  simp only [getCurrentTemperature]
  rw [if_neg hvalid, MemoryCache.get_fst_some hhit]
  rfl

/-- A record the pipeline would have cached at a fetch displayed as 10:00,
used to probe the staleness relabel. -/
def staleProbeRecord : TemperatureData :=
  { temperature := 20, unit := "°C", location := "Paris",
    lastUpdate := formatTimestamp 10 0, connectionStatus := .online }

/-- A cache holding, under the key for ("Paris", celsius), the probe record
in an entry still unexpired when read 7200000 ms after the fetch. -/
def staleProbeCache : MemoryCache :=
  fun k => if k = cacheKey "Paris" .celsius
    then some ⟨.temp staleProbeRecord, 10000000⟩ else none

/-- Claim C1: the claim requires a cached record read strictly more than
3600000 ms after its fetch time to be relabeled stale, the age being derived
from the record's lastUpdate. The code computes
`Date.now() - new Date(cachedData.lastUpdate).getTime()`, and lastUpdate is
always an "Updated at HH:MM" display string, which no Date parser accepts:
the age is NaN, the comparison with 3600000 is false, and the stale label is
unreachable. This theorem evaluates the code at the failing input: a hit on
a record fetched 7200000 ms before the read (first conjunct: the embedded age
check yields false at that age; second conjunct: the call returns the record
labeled online, where the claim demands stale). -/
theorem c1_stale_label_unreachable :
    ((jsDateGetTime staleProbeRecord.lastUpdate).subFrom 7200000).gt 3600000
      = false
  ∧ (getCurrentTemperature "Paris" .celsius 7200000 staleProbeCache
      (.err "unused") 7200000 staleProbeCache 12 0).fst
      = .ok { staleProbeRecord with connectionStatus := .online } :=
  ⟨rfl, by decide⟩

/-- Claim C2 counterexample: on a cache miss with provider reading 100 °C
(implausible), the call does not fail with a distinct ImplausibleReading
kind: it produces exactly the same WEATHER_API_ERROR outcome as a provider
fetch failure (the spec's ProviderUnavailable), because the
implausible-range throw is caught by the catch block shared with fetch
failures. -/
theorem c2_counterexample :
    (getCurrentTemperature "Berlin" .celsius 0 MemoryCache.empty
      (.ok ⟨"Berlin", 100⟩) 5 MemoryCache.empty 1 2).fst
      = (getCurrentTemperature "Berlin" .celsius 0 MemoryCache.empty
          (.err "timeout") 5 MemoryCache.empty 1 2).fst
  ∧ (getCurrentTemperature "Berlin" .celsius 0 MemoryCache.empty
      (.ok ⟨"Berlin", 100⟩) 5 MemoryCache.empty 1 2).fst
      = .errApi "WEATHER_API_ERROR"
          "Unable to retrieve weather data and no cached data available" := by
  constructor <;> decide

/-- Claim C2 as amended: on a cache miss where the provider returns a
reading strictly below -90 or strictly above 60, the reading is never stored
(the cache can only shrink by lazy eviction), and the implausible-range
error is handled by the same catch block as fetch failures: the call returns
a cached record relabeled offline when the second lookup finds one, and
otherwise fails with the WEATHER_API_ERROR outcome carrying the
no-cached-data message — not with a distinct ImplausibleReading kind. -/
theorem c2_implausible_reading_behavior (location : String)
    (u : TemperatureUnit) (now1 now2 : Int) (c1 c2 : MemoryCache)
    (r : WeatherApiResponse) (h m : Nat)
    (hvalid : ¬(location = "" ∨ location.length > 50))
    (hmiss : (MemoryCache.get c1 (cacheKey location u) now1).fst = none)
    (himpl : r.temp_c < -90 ∨ r.temp_c > 60) :
    (∀ d : TemperatureData,
      (MemoryCache.get c2 (cacheKey location u) now2).fst = some (.temp d) →
      (getCurrentTemperature location u now1 c1 (.ok r) now2 c2 h m).fst
        = .ok { d with connectionStatus := .offline })
  ∧ ((MemoryCache.get c2 (cacheKey location u) now2).fst = none →
      (getCurrentTemperature location u now1 c1 (.ok r) now2 c2 h m).fst
        = .errApi "WEATHER_API_ERROR"
            "Unable to retrieve weather data and no cached data available")
  ∧ (∀ k : String,
      (getCurrentTemperature location u now1 c1 (.ok r) now2 c2 h m).snd k
        = c2 k
      ∨ (getCurrentTemperature location u now1 c1 (.ok r) now2 c2 h m).snd k
        = none) := by
  rw [getCurrentTemperature_of_miss location u now1 now2 c1 c2 (.ok r) h m
      hvalid hmiss,
    fetchAndStore_outOfRange (cacheKey location u) u now2 c2 h m himpl]
  refine ⟨fun d hd => ?_, fun hn => ?_, fun k => ?_⟩
  · rw [offlineFallback_found hd]
  · exact offlineFallback_none hn
  · rw [offlineFallback_snd]
    exact MemoryCache.get_snd_apply c2 _ now2 k

/-- Witness for the amended C2 at a concrete input: empty cache, reading
100 °C; the hypotheses hold and the call fails with the WEATHER_API_ERROR
outcome. -/
theorem c2_implausible_reading_behavior_witness :
    ¬(("Berlin" : String) = "" ∨ ("Berlin" : String).length > 50)
  ∧ (MemoryCache.get MemoryCache.empty (cacheKey "Berlin" .celsius) 0).fst
      = none
  ∧ ((100 : ℚ) < -90 ∨ (100 : ℚ) > 60)
  ∧ ((MemoryCache.get MemoryCache.empty (cacheKey "Berlin" .celsius) 5).fst
        = none →
      (getCurrentTemperature "Berlin" .celsius 0 MemoryCache.empty
        (.ok ⟨"Berlin", 100⟩) 5 MemoryCache.empty 1 2).fst
        = .errApi "WEATHER_API_ERROR"
            "Unable to retrieve weather data and no cached data available") :=
  ⟨by decide, by decide, by decide,
    (c2_implausible_reading_behavior "Berlin" .celsius 0 5 MemoryCache.empty
      MemoryCache.empty ⟨"Berlin", 100⟩ 1 2 (by decide) (by decide)
      (by decide)).2.1⟩

/-- Claim C3: on a cache miss followed by a fetch failure of any kind
(timeout included), the catch block performs a second lookup under the same
key: when it finds a temperature record, the call returns that record
relabeled offline and does not fail; when it finds nothing, the call fails
with WEATHER_API_ERROR carrying the no-cached-data-available message. -/
theorem c3_offline_fallback (location : String) (u : TemperatureUnit)
    (now1 now2 : Int) (c1 c2 : MemoryCache) (msg : String) (h m : Nat)
    (hvalid : ¬(location = "" ∨ location.length > 50))
    (hmiss : (MemoryCache.get c1 (cacheKey location u) now1).fst = none) :
    (∀ d : TemperatureData,
      (MemoryCache.get c2 (cacheKey location u) now2).fst = some (.temp d) →
      (getCurrentTemperature location u now1 c1 (.err msg) now2 c2 h m).fst
        = .ok { d with connectionStatus := .offline })
  ∧ ((MemoryCache.get c2 (cacheKey location u) now2).fst = none →
      (getCurrentTemperature location u now1 c1 (.err msg) now2 c2 h m).fst
        = .errApi "WEATHER_API_ERROR"
            "Unable to retrieve weather data and no cached data available") := by
  rw [getCurrentTemperature_of_miss location u now1 now2 c1 c2 (.err msg) h m
      hvalid hmiss,
    fetchAndStore_err (cacheKey location u) u msg now2 c2 h m]
  refine ⟨fun d hd => ?_, fun hn => ?_⟩
  · rw [offlineFallback_found hd]
  · exact offlineFallback_none hn

/-- Witness for C3 at a concrete input: a populated second-lookup cache and
a timeout; the call returns the cached record relabeled offline. -/
theorem c3_offline_fallback_witness :
    ¬(("Paris" : String) = "" ∨ ("Paris" : String).length > 50)
  ∧ (MemoryCache.get MemoryCache.empty (cacheKey "Paris" .celsius) 0).fst
      = none
  ∧ (MemoryCache.get
      (MemoryCache.set MemoryCache.empty (cacheKey "Paris" .celsius)
        (.temp ⟨20, "°C", "Paris", formatTimestamp 10 0, .online⟩) 900 0)
      (cacheKey "Paris" .celsius) 5).fst
      = some (.temp ⟨20, "°C", "Paris", formatTimestamp 10 0, .online⟩)
  ∧ (getCurrentTemperature "Paris" .celsius 0 MemoryCache.empty
      (.err "timeout") 5
      (MemoryCache.set MemoryCache.empty (cacheKey "Paris" .celsius)
        (.temp ⟨20, "°C", "Paris", formatTimestamp 10 0, .online⟩) 900 0)
      1 2).fst
      = .ok { (⟨20, "°C", "Paris", formatTimestamp 10 0, .online⟩ :
          TemperatureData) with connectionStatus := .offline } :=
  ⟨by decide, by decide, by decide,
    (c3_offline_fallback "Paris" .celsius 0 5 MemoryCache.empty
      (MemoryCache.set MemoryCache.empty (cacheKey "Paris" .celsius)
        (.temp ⟨20, "°C", "Paris", formatTimestamp 10 0, .online⟩) 900 0)
      "timeout" 1 2 (by decide) (by decide)).1
      ⟨20, "°C", "Paris", formatTimestamp 10 0, .online⟩ (by decide)⟩

/-- Claim C4: on a cache miss with a successful fetch, the reading is
rejected (the validation throw is taken, nothing is cached, and the call
falls into the no-cache failure when nothing can be served) exactly when it
is strictly below -90 or strictly above 60; otherwise the pipeline proceeds
to conversion and caching. The boundary readings -90 and 60 are accepted;
-90.1 and 60.1 are rejected. -/
theorem c4_plausibility_boundary (location : String) (u : TemperatureUnit)
    (now1 now2 : Int) (c1 : MemoryCache) (r : WeatherApiResponse) (h m : Nat)
    (hvalid : ¬(location = "" ∨ location.length > 50))
    (hmiss : (MemoryCache.get c1 (cacheKey location u) now1).fst = none) :
    ((r.temp_c < -90 ∨ r.temp_c > 60) →
      (getCurrentTemperature location u now1 c1 (.ok r) now2
        MemoryCache.empty h m).fst
        = .errApi "WEATHER_API_ERROR"
            "Unable to retrieve weather data and no cached data available"
      ∧ ∀ k : String,
          (getCurrentTemperature location u now1 c1 (.ok r) now2
            MemoryCache.empty h m).snd k = none)
  ∧ (¬(r.temp_c < -90 ∨ r.temp_c > 60) →
      (getCurrentTemperature location u now1 c1 (.ok r) now2
        MemoryCache.empty h m).fst
        = .ok (freshRecord u r h m)
      ∧ (getCurrentTemperature location u now1 c1 (.ok r) now2
          MemoryCache.empty h m).snd (cacheKey location u)
          = some ⟨.temp (freshRecord u r h m), now2 + configCacheTtl * 1000⟩)
  ∧ ¬((-90 : ℚ) < -90 ∨ (-90 : ℚ) > 60)
  ∧ ¬((60 : ℚ) < -90 ∨ (60 : ℚ) > 60)
  ∧ ((-90.1 : ℚ) < -90 ∨ (-90.1 : ℚ) > 60)
  ∧ ((60.1 : ℚ) < -90 ∨ (60.1 : ℚ) > 60) := by
  rw [getCurrentTemperature_of_miss location u now1 now2 c1
      MemoryCache.empty (.ok r) h m hvalid hmiss]
  refine ⟨fun hr => ?_, fun hr => ?_, by norm_num, by norm_num,
    by norm_num, by norm_num⟩
  · rw [fetchAndStore_outOfRange (cacheKey location u) u now2
      MemoryCache.empty h m hr]
    refine ⟨offlineFallback_none rfl, fun k => ?_⟩
    rw [offlineFallback_snd]
    rfl
  · rw [fetchAndStore_ok (cacheKey location u) u now2 MemoryCache.empty h m hr]
    exact ⟨rfl, MemoryCache.set_apply_same MemoryCache.empty _ _ _ now2⟩

/-- Witness for C4 at concrete inputs: reading 100 is rejected with the
no-cache failure; boundary reading -90 is accepted, converted and
returned. -/
theorem c4_plausibility_boundary_witness :
    ¬(("Oslo" : String) = "" ∨ ("Oslo" : String).length > 50)
  ∧ (MemoryCache.get MemoryCache.empty (cacheKey "Oslo" .celsius) 0).fst
      = none
  ∧ ((100 : ℚ) < -90 ∨ (100 : ℚ) > 60)
  ∧ ¬((-90 : ℚ) < -90 ∨ (-90 : ℚ) > 60)
  ∧ (getCurrentTemperature "Oslo" .celsius 0 MemoryCache.empty
      (.ok ⟨"Oslo", 100⟩) 5 MemoryCache.empty 1 2).fst
      = .errApi "WEATHER_API_ERROR"
          "Unable to retrieve weather data and no cached data available"
  ∧ (getCurrentTemperature "Oslo" .celsius 0 MemoryCache.empty
      (.ok ⟨"Oslo", -90⟩) 5 MemoryCache.empty 1 2).fst
      = .ok (freshRecord .celsius ⟨"Oslo", -90⟩ 1 2) :=
  ⟨by decide, by decide, by decide, by decide,
    ((c4_plausibility_boundary "Oslo" .celsius 0 5 MemoryCache.empty
      ⟨"Oslo", 100⟩ 1 2 (by decide) (by decide)).1 (by decide)).1,
    ((c4_plausibility_boundary "Oslo" .celsius 0 5 MemoryCache.empty
      ⟨"Oslo", -90⟩ 1 2 (by decide) (by decide)).2.1 (by decide)).1⟩

/-- Claim C6: refreshTemperature unconditionally deletes the cached
temperature record for (location, unit), writes a refresh-guard entry
holding the current timestamp with TTL 30 s, and only then delegates to the
retrieval pipeline on the modified cache. Conjuncts: (a) the guard entry is
in place (value now0, expiry now0 + 30000) before the pipeline runs; (b) the
temperature record is guaranteed absent at the pipeline's first lookup;
(c) the call is exactly the pipeline call on the modified cache; (d) the
result is independent of any previously present refresh-guard entry — no
eligibility re-check; (e) in a sequential run the guard write survives in
the final cache whatever the fetch outcome, success or failure. -/
theorem c6_refresh_deletes_then_writes_guard (location : String)
    (u : TemperatureUnit) (now0 now2 : Int) (c c2 : MemoryCache)
    (fetch : FetchResult) (h m : Nat) :
    (MemoryCache.set (MemoryCache.del c (cacheKey location u))
        (refreshKey location) (.num now0) 30 now0) (refreshKey location)
      = some ⟨.num now0, now0 + 30 * 1000⟩
  ∧ (MemoryCache.get
      (MemoryCache.set (MemoryCache.del c (cacheKey location u))
        (refreshKey location) (.num now0) 30 now0)
      (cacheKey location u) now0).fst = none
  ∧ refreshTemperature location u now0 c fetch now2 c2 h m
      = getCurrentTemperature location u now0
          (MemoryCache.set (MemoryCache.del c (cacheKey location u))
            (refreshKey location) (.num now0) 30 now0) fetch now2 c2 h m
  ∧ refreshTemperature location u now0
      (MemoryCache.del c (refreshKey location)) fetch now2 c2 h m
      = refreshTemperature location u now0 c fetch now2 c2 h m
  ∧ (refreshTemperature location u now0 c fetch now2
      (MemoryCache.set (MemoryCache.del c (cacheKey location u))
        (refreshKey location) (.num now0) 30 now0) h m).snd
      (refreshKey location)
      = some ⟨.num now0, now0 + 30 * 1000⟩ := by
  have hkr : cacheKey location u ≠ refreshKey location :=
    Ne.symm (refreshKey_ne_cacheKey location location u)
  have ha := MemoryCache.set_apply_same
    (MemoryCache.del c (cacheKey location u)) (refreshKey location)
    (CacheValue.num now0) 30 now0
  have hc1key : (MemoryCache.set (MemoryCache.del c (cacheKey location u))
      (refreshKey location) (.num now0) 30 now0) (cacheKey location u)
      = none := by
    rw [MemoryCache.set_apply_ne _ _ _ _ hkr]
    simp [MemoryCache.del]
  have hb : (MemoryCache.get
      (MemoryCache.set (MemoryCache.del c (cacheKey location u))
        (refreshKey location) (.num now0) 30 now0)
      (cacheKey location u) now0).fst = none := by
    rw [MemoryCache.get_of_eq_none now0 hc1key]
  refine ⟨ha, hb, rfl, ?_, ?_⟩
  · have hcaches :
        MemoryCache.set
          (MemoryCache.del (MemoryCache.del c (refreshKey location))
            (cacheKey location u))
          (refreshKey location) (.num now0) 30 now0
        = MemoryCache.set (MemoryCache.del c (cacheKey location u))
            (refreshKey location) (.num now0) 30 now0 := by
      funext k
      by_cases hk : k = refreshKey location
      · simp [MemoryCache.set, hk]
      · by_cases hk2 : k = cacheKey location u
        · simp [MemoryCache.set, MemoryCache.del, hk, hk2]
        · simp [MemoryCache.set, MemoryCache.del, hk, hk2]
    simp only [refreshTemperature]
    rw [hcaches]
  · by_cases hval : location = "" ∨ location.length > 50
    · simp only [refreshTemperature, getCurrentTemperature]
      rw [if_pos hval]
      exact ha
    · show (getCurrentTemperature location u now0
        (MemoryCache.set (MemoryCache.del c (cacheKey location u))
          (refreshKey location) (.num now0) 30 now0) fetch now2
        (MemoryCache.set (MemoryCache.del c (cacheKey location u))
          (refreshKey location) (.num now0) 30 now0) h m).snd
        (refreshKey location) = _
      rw [getCurrentTemperature_of_miss location u now0 now2 _ _ fetch h m
        hval hb]
      rw [fetchAndStore_snd_apply_ne (cacheKey location u) u fetch now2 _ h m
        (refreshKey_ne_cacheKey location location u)]
      exact ha

/-- Claim C8: on every cache hit the returned record equals the cached one
in temperature, unit, location and lastUpdate, differing at most in
connectionStatus; the cache is left unchanged (the cached record is never
mutated) and no provider fetch occurs — the outcome is independent of the
fetch oracle and of everything observed after the await point. The offline
relabel likewise copies all fields and leaves the cache unchanged. -/
theorem c8_hit_returns_copy (location : String) (u : TemperatureUnit)
    (now1 now2 now2' : Int) (c1 c2 c2' : MemoryCache)
    (fetch fetch' : FetchResult) (msg : String) (h m h' m' : Nat)
    (d : TemperatureData)
    (hvalid : ¬(location = "" ∨ location.length > 50)) :
    ((MemoryCache.get c1 (cacheKey location u) now1).fst = some (.temp d) →
      getCurrentTemperature location u now1 c1 fetch now2 c2 h m
        = getCurrentTemperature location u now1 c1 fetch' now2' c2' h' m'
      ∧ getCurrentTemperature location u now1 c1 fetch now2 c2 h m
        = (.ok { temperature := d.temperature, unit := d.unit,
                 location := d.location, lastUpdate := d.lastUpdate,
                 connectionStatus := .online }, c1))
  ∧ ((MemoryCache.get c1 (cacheKey location u) now1).fst = none →
      (MemoryCache.get c2 (cacheKey location u) now2).fst = some (.temp d) →
      getCurrentTemperature location u now1 c1 (.err msg) now2 c2 h m
        = (.ok { temperature := d.temperature, unit := d.unit,
                 location := d.location, lastUpdate := d.lastUpdate,
                 connectionStatus := .offline }, c2)) := by
  refine ⟨fun hhit => ?_, fun hmiss hf => ?_⟩
  · rw [getCurrentTemperature_of_hit location u now1 now2 c1 c2 fetch h m
      hvalid hhit,
      getCurrentTemperature_of_hit location u now1 now2' c1 c2' fetch' h' m'
      hvalid hhit]
    exact ⟨rfl, rfl⟩
  · rw [getCurrentTemperature_of_miss location u now1 now2 c1 c2 (.err msg)
      h m hvalid hmiss,
      fetchAndStore_err (cacheKey location u) u msg now2 c2 h m,
      offlineFallback_found hf]

/-- Witness for C8 at a concrete input: a hit on a cached record returns a
copy whose only changed field is connectionStatus, with the cache untouched
and the fetch oracle irrelevant. -/
theorem c8_hit_returns_copy_witness :
    ¬(("Rio" : String) = "" ∨ ("Rio" : String).length > 50)
  ∧ (MemoryCache.get
      (MemoryCache.set MemoryCache.empty (cacheKey "Rio" .celsius)
        (.temp ⟨21, "°C", "Rio", formatTimestamp 9 30, .online⟩) 900 0)
      (cacheKey "Rio" .celsius) 5).fst
      = some (.temp ⟨21, "°C", "Rio", formatTimestamp 9 30, .online⟩)
  ∧ getCurrentTemperature "Rio" .celsius 5
      (MemoryCache.set MemoryCache.empty (cacheKey "Rio" .celsius)
        (.temp ⟨21, "°C", "Rio", formatTimestamp 9 30, .online⟩) 900 0)
      (.err "timeout") 6 MemoryCache.empty 1 2
      = getCurrentTemperature "Rio" .celsius 5
          (MemoryCache.set MemoryCache.empty (cacheKey "Rio" .celsius)
            (.temp ⟨21, "°C", "Rio", formatTimestamp 9 30, .online⟩) 900 0)
          (.ok ⟨"Elsewhere", 0⟩) 99 MemoryCache.empty 3 4 :=
  ⟨by decide, by decide,
    ((c8_hit_returns_copy "Rio" .celsius 5 6 99
      (MemoryCache.set MemoryCache.empty (cacheKey "Rio" .celsius)
        (.temp ⟨21, "°C", "Rio", formatTimestamp 9 30, .online⟩) 900 0)
      MemoryCache.empty MemoryCache.empty (.err "timeout")
      (.ok ⟨"Elsewhere", 0⟩) "unused" 1 2 3 4
      ⟨21, "°C", "Rio", formatTimestamp 9 30, .online⟩
      (by decide)).1 (by decide)).1⟩

/-- Claim C9: the Celsius→Fahrenheit conversion is (c * 9/5) + 32, with
fahrenheit(20) = 68 and fahrenheit(-40) = -40 (also after the pipeline's
one-decimal rounding); a celsius request passes the provider reading through
unchanged; the value is rounded to one decimal digit before being stored and
returned, and every rounded value has at most one fractional decimal
digit. -/
theorem c9_unit_conversion (location : String) (u : TemperatureUnit)
    (now1 now2 : Int) (c1 c2 : MemoryCache) (r : WeatherApiResponse)
    (h m : Nat)
    (hvalid : ¬(location = "" ∨ location.length > 50))
    (hmiss : (MemoryCache.get c1 (cacheKey location u) now1).fst = none)
    (hr : ¬(r.temp_c < -90 ∨ r.temp_c > 60)) :
    (∀ x : ℚ, celsiusToFahrenheit x = x * (9 / 5) + 32)
  ∧ celsiusToFahrenheit 20 = 68
  ∧ celsiusToFahrenheit (-40) = -40
  ∧ roundToOneDecimal (celsiusToFahrenheit 20) = 68
  ∧ roundToOneDecimal (celsiusToFahrenheit (-40)) = -40
  ∧ (∀ x : ℚ, ∃ n : ℤ, roundToOneDecimal x = (n : ℚ) / 10)
  ∧ (u = .celsius →
      getCurrentTemperature location u now1 c1 (.ok r) now2 c2 h m
        = (.ok (freshRecord .celsius r h m),
           MemoryCache.set c2 (cacheKey location .celsius)
             (.temp (freshRecord .celsius r h m)) configCacheTtl now2)
      ∧ (freshRecord .celsius r h m).temperature = roundToOneDecimal r.temp_c
      ∧ (freshRecord .celsius r h m).unit = "°C")
  ∧ (u = .fahrenheit →
      getCurrentTemperature location u now1 c1 (.ok r) now2 c2 h m
        = (.ok (freshRecord .fahrenheit r h m),
           MemoryCache.set c2 (cacheKey location .fahrenheit)
             (.temp (freshRecord .fahrenheit r h m)) configCacheTtl now2)
      ∧ (freshRecord .fahrenheit r h m).temperature
          = roundToOneDecimal (celsiusToFahrenheit r.temp_c)
      ∧ (freshRecord .fahrenheit r h m).unit = "°F") := by
  refine ⟨fun x => by rw [celsiusToFahrenheit]; ring,
    by norm_num [celsiusToFahrenheit],
    by norm_num [celsiusToFahrenheit],
    by norm_num [roundToOneDecimal, celsiusToFahrenheit],
    by norm_num [roundToOneDecimal, celsiusToFahrenheit],
    fun x => ⟨⌊x * 10 + 1/2⌋, rfl⟩,
    fun hu => ?_, fun hu => ?_⟩
  · subst hu
    rw [getCurrentTemperature_of_miss location .celsius now1 now2 c1 c2
      (.ok r) h m hvalid hmiss,
      fetchAndStore_ok (cacheKey location .celsius) .celsius now2 c2 h m hr]
    exact ⟨rfl, rfl, rfl⟩
  · subst hu
    rw [getCurrentTemperature_of_miss location .fahrenheit now1 now2 c1 c2
      (.ok r) h m hvalid hmiss,
      fetchAndStore_ok (cacheKey location .fahrenheit) .fahrenheit now2 c2
      h m hr]
    exact ⟨rfl, rfl, rfl⟩

/-- Witness for C9 at a concrete input: a celsius request for a reading of
20 °C returns the identity-converted, rounded record. -/
theorem c9_unit_conversion_witness :
    ¬(("Lyon" : String) = "" ∨ ("Lyon" : String).length > 50)
  ∧ (MemoryCache.get MemoryCache.empty (cacheKey "Lyon" .celsius) 0).fst
      = none
  ∧ ¬((20 : ℚ) < -90 ∨ (20 : ℚ) > 60)
  ∧ celsiusToFahrenheit 20 = 68
  ∧ (getCurrentTemperature "Lyon" .celsius 0 MemoryCache.empty
      (.ok ⟨"Lyon", 20⟩) 5 MemoryCache.empty 1 2
      = (.ok (freshRecord .celsius ⟨"Lyon", 20⟩ 1 2),
         MemoryCache.set MemoryCache.empty (cacheKey "Lyon" .celsius)
           (.temp (freshRecord .celsius ⟨"Lyon", 20⟩ 1 2))
           configCacheTtl 5)) :=
  ⟨by decide, by decide, by decide,
    (c9_unit_conversion "Lyon" .celsius 0 5 MemoryCache.empty
      MemoryCache.empty ⟨"Lyon", 20⟩ 1 2 (by decide) (by decide)
      (by decide)).2.1,
    ((c9_unit_conversion "Lyon" .celsius 0 5 MemoryCache.empty
      MemoryCache.empty ⟨"Lyon", 20⟩ 1 2 (by decide) (by decide)
      (by decide)).2.2.2.2.2.2.1 rfl).1⟩

/-- Invariant: every TemperatureData record stored anywhere in the cache
carries connectionStatus 'online'. -/
def AllOnline (c : MemoryCache) : Prop :=
  ∀ (k : String) (e : CacheEntry) (d : TemperatureData),
    c k = some e → e.data = .temp d → d.connectionStatus = .online

theorem allOnline_empty : AllOnline MemoryCache.empty :=
  fun k _ _ hk _ => by simp [MemoryCache.empty] at hk

theorem AllOnline.del {c : MemoryCache} (h : AllOnline c) (key : String) :
    AllOnline (MemoryCache.del c key) := by
  intro k e d hk hd
  by_cases hkk : k = key
  · simp [MemoryCache.del, hkk] at hk
  · rw [MemoryCache.del_apply_ne c hkk] at hk
    exact h k e d hk hd

theorem AllOnline.set_num {c : MemoryCache} (h : AllOnline c) (key : String)
    (n ttl now : Int) :
    AllOnline (MemoryCache.set c key (.num n) ttl now) := by
  intro k e d hk hd
  by_cases hkk : k = key
  · subst hkk
    rw [MemoryCache.set_apply_same] at hk
    cases hk
    simp at hd
  · rw [MemoryCache.set_apply_ne c _ _ _ hkk] at hk
    exact h k e d hk hd

theorem AllOnline.set_online {c : MemoryCache} (h : AllOnline c)
    (key : String) (d0 : TemperatureData) (ttl now : Int)
    (hd0 : d0.connectionStatus = .online) :
    AllOnline (MemoryCache.set c key (.temp d0) ttl now) := by
  intro k e d hk hd
  by_cases hkk : k = key
  · subst hkk
    rw [MemoryCache.set_apply_same] at hk
    cases hk
    simp at hd
    subst hd
    exact hd0
  · rw [MemoryCache.set_apply_ne c _ _ _ hkk] at hk
    exact h k e d hk hd

theorem AllOnline.get_snd {c : MemoryCache} (h : AllOnline c) (key : String)
    (now : Int) : AllOnline (MemoryCache.get c key now).snd := by
  intro k e d hk hd
  rcases MemoryCache.get_snd_apply c key now k with heq | heq
  · rw [heq] at hk
    exact h k e d hk hd
  · rw [heq] at hk
    exact absurd hk (by simp)

theorem allOnline_offlineFallback {c2 : MemoryCache} (h2 : AllOnline c2)
    (key : String) (now2 : Int) :
    AllOnline (offlineFallback key now2 c2).snd := by
  rw [offlineFallback_snd]
  exact h2.get_snd key now2

theorem allOnline_fetchAndStore {c2 : MemoryCache} (h2 : AllOnline c2)
    (key : String) (u : TemperatureUnit) (fetch : FetchResult) (now2 : Int)
    (h m : Nat) : AllOnline (fetchAndStore key u fetch now2 c2 h m).snd := by
  rcases fetch with r | msg
  · by_cases hr : r.temp_c < -90 ∨ r.temp_c > 60
    · rw [fetchAndStore_outOfRange key u now2 c2 h m hr]
      exact allOnline_offlineFallback h2 key now2
    · rw [fetchAndStore_ok key u now2 c2 h m hr]
      exact h2.set_online key _ _ _ rfl
  · rw [fetchAndStore_err key u msg now2 c2 h m]
    exact allOnline_offlineFallback h2 key now2

theorem allOnline_getCurrentTemperature (location : String)
    (u : TemperatureUnit) (now1 now2 : Int) {c1 c2 : MemoryCache}
    (fetch : FetchResult) (h m : Nat)
    (h1 : AllOnline c1) (h2 : AllOnline c2) :
    AllOnline (getCurrentTemperature location u now1 c1 fetch now2 c2 h m).snd := by
  simp only [getCurrentTemperature]
  by_cases hval : location = "" ∨ location.length > 50
  · rw [if_pos hval]
    exact h1
  · rw [if_neg hval]
    rcases hg : MemoryCache.get c1 (cacheKey location u) now1 with ⟨v, c1'⟩
    have hsnd : AllOnline c1' := by
      have hh := h1.get_snd (cacheKey location u) now1
      rw [hg] at hh
      exact hh
    rcases v with _ | d | n
    · exact allOnline_fetchAndStore h2 _ u fetch now2 h m
    · exact hsnd
    · by_cases hn : n = 0
      · show AllOnline (if n = 0 then
            fetchAndStore (cacheKey location u) u fetch now2 c2 h m
          else (CallOutcome.illTyped, c1')).snd
        rw [if_pos hn]
        exact allOnline_fetchAndStore h2 _ u fetch now2 h m
      · show AllOnline (if n = 0 then
            fetchAndStore (cacheKey location u) u fetch now2 c2 h m
          else (CallOutcome.illTyped, c1')).snd
        rw [if_neg hn]
        exact hsnd

/-- Claim C10: records are written to the cache only immediately after a
successful fetch, where connectionStatus is 'online'; the stale and offline
relabels are returned but never written back. Hence every TemperatureData
stored in the cache carries status 'online', and both getCurrentTemperature
and refreshTemperature preserve this invariant. -/
theorem c10_cached_records_always_online (location : String)
    (u : TemperatureUnit) (now1 now2 now0 : Int) (c1 c2 : MemoryCache)
    (fetch : FetchResult) (h m : Nat)
    (h1 : AllOnline c1) (h2 : AllOnline c2) :
    AllOnline (getCurrentTemperature location u now1 c1 fetch now2 c2 h m).snd
  ∧ AllOnline (refreshTemperature location u now0 c1 fetch now2 c2 h m).snd := by
  refine ⟨allOnline_getCurrentTemperature location u now1 now2 fetch h m
    h1 h2, ?_⟩
  simp only [refreshTemperature]
  exact allOnline_getCurrentTemperature location u now0 now2 fetch h m
    (((h1.del (cacheKey location u))).set_num (refreshKey location) now0 30
      now0) h2

/-- Witness for C10 at a concrete input: starting from empty caches, both
calls leave only online records in the cache. -/
theorem c10_cached_records_always_online_witness :
    AllOnline MemoryCache.empty
  ∧ AllOnline (getCurrentTemperature "Nice" .celsius 0 MemoryCache.empty
      (.ok ⟨"Nice", 20⟩) 5 MemoryCache.empty 3 4).snd
  ∧ AllOnline (refreshTemperature "Nice" .celsius 7 MemoryCache.empty
      (.ok ⟨"Nice", 20⟩) 5 MemoryCache.empty 3 4).snd :=
  ⟨allOnline_empty,
    (c10_cached_records_always_online "Nice" .celsius 0 5 7
      MemoryCache.empty MemoryCache.empty (.ok ⟨"Nice", 20⟩) 3 4
      allOnline_empty allOnline_empty).1,
    (c10_cached_records_always_online "Nice" .celsius 0 5 7
      MemoryCache.empty MemoryCache.empty (.ok ⟨"Nice", 20⟩) 3 4
      allOnline_empty allOnline_empty).2⟩

end Weather
